import Mathlib

/-!
Verification of the dataset reset scripts in `scripts/clear_adjacency_matrix.py`
and `scripts/clear_database.py`.

The scripts operate on a JSON document loaded with `json.load`, mutate a few
top-level keys, and write the document back.  We embed the JSON values the
scripts manipulate as an inductive type, model Python `dict` access
(`d.get(k)`, `d.get(k, default)`, `d[k] = v`) by insertion-order association
lists, Python truthiness and the `or` operator, and translate the two document
transformations.  The file layer (read, parse, transform, write) is modelled
by a small state machine that records whether a write happened.
-/

set_option autoImplicit false

namespace KCM

/-- JSON values as produced by `json.load`: `null`, booleans, numbers
(modelled as integers; the documents hold no fractional numbers), strings,
arrays, and objects with insertion-ordered fields. -/
inductive JValue where
  | null
  | bool (b : Bool)
  | num (n : Int)
  | str (s : String)
  | arr (elems : List JValue)
  | obj (fields : List (String × JValue))
  deriving Repr

/-- First-match lookup of a key in an object's field list.  Python dicts hold
each key once, so first match is the dict lookup. -/
def lookupKey : List (String × JValue) → String → Option JValue
  | [], _ => none
  | (k', v) :: rest, k => if k' = k then some v else lookupKey rest k

/-- Python `d[k] = v` on an insertion-ordered dict: update the existing entry
in place, or append a new entry at the end. -/
def setKey : List (String × JValue) → String → JValue → List (String × JValue)
  | [], k, v => [(k, v)]
  | (k', v') :: rest, k, v =>
      if k' = k then (k, v) :: rest else (k', v') :: setKey rest k v

/-- Python truthiness of a JSON-decoded value: `None`, `False`, `0`, `""`,
`[]` and `{}` are falsy, everything else is truthy. -/
def truthy : JValue → Bool
  | .null => false
  | .bool b => b
  | .num n => n != 0
  | .str s => s != ""
  | .arr es => !es.isEmpty
  | .obj fs => !fs.isEmpty

/-- Python `a or b`: returns `a` when `a` is truthy, else `b`. -/
def pyOr (a b : JValue) : JValue :=
  if truthy a then a else b

/-- Python `v.get(k)` for a JSON value: defined when `v` is a dict (missing
keys give `None`); any other value raises `AttributeError`, modelled as
`none`. -/
def pyGet : JValue → String → Option JValue
  | .obj fs, k => some ((lookupKey fs k).getD .null)
  | _, _ => none

/-- `lang.get("id") or lang.get("name")` for one entry of the `languages`
list (fails when the entry is not a dict). -/
def idOrName (lang : JValue) : Option JValue := do
  let i ← pyGet lang "id"
  let n ← pyGet lang "name"
  pure (pyOr i n)

/-- Python iteration `for x in v`: lists yield their elements, strings yield
their characters as one-character strings, dicts yield their keys; `None`,
booleans and numbers are not iterable (`TypeError`, modelled as `none`). -/
def iterElems : JValue → Option (List JValue)
  | .arr es => some es
  | .str s => some (s.data.map (fun c => .str (String.singleton c)))
  | .obj fs => some (fs.map (fun p => JValue.str p.1))
  | _ => none

/-- The list comprehension
`[lang.get("id") or lang.get("name") for lang in languages]`. -/
def computeLanguageIds : List JValue → Option (List JValue)
  | [] => some []
  | lang :: rest => do
      let v ← idOrName lang
      let vs ← computeLanguageIds rest
      pure (v :: vs)

/-- `build_empty_adjacency(language_ids)`: the object
`{"languageIds": language_ids, "matrix": [[None]*size for _ in range(size)]}`
with `size = len(language_ids)`. -/
def build_empty_adjacency (language_ids : List JValue) : JValue :=
  .obj [("languageIds", .arr language_ids),
        ("matrix", .arr (List.replicate language_ids.length
          (.arr (List.replicate language_ids.length .null))))]

/-- The `languageIds` field of an adjacency-matrix object, when it is an
array. -/
def matrixLanguageIds (m : JValue) : Option (List JValue) :=
  match m with
  | .obj fs =>
      match lookupKey fs "languageIds" with
      | some (.arr ids) => some ids
      | _ => none
  | _ => none

/-- The `matrix` field of an adjacency-matrix object, when it is an array of
rows. -/
def matrixRows (m : JValue) : Option (List JValue) :=
  match m with
  | .obj fs =>
      match lookupKey fs "matrix" with
      | some (.arr rows) => some rows
      | _ => none
  | _ => none

/-- The document transformation of `clear_adjacency_matrix`: read
`data.get("languages", [])`, compute the id-or-name list, and set
`data["adjacencyMatrix"]` to `build_empty_adjacency` of it.  `none` models a
Python runtime error (the top-level value is not a dict, the languages value
is not iterable, or an entry has no `.get`). -/
def clearAdjacencyDoc (doc : JValue) : Option JValue :=
  match doc with
  | .obj fields =>
      match iterElems ((lookupKey fields "languages").getD (.arr [])) with
      | none => none
      | some langs =>
          match computeLanguageIds langs with
          | none => none
          | some ids =>
              some (.obj (setKey fields "adjacencyMatrix"
                (build_empty_adjacency ids)))
  | _ => none

/-- The four assignments of `clear_database`, in source order:
`data["languages"] = []`, `data["references"] = []`,
`data["separatingFunctions"] = []`,
`data["adjacencyMatrix"] = build_empty_adjacency([])`. -/
def clearDatabaseFields (fields : List (String × JValue)) : List (String × JValue) :=
  setKey (setKey (setKey (setKey fields
    "languages" (.arr []))
    "references" (.arr []))
    "separatingFunctions" (.arr []))
    "adjacencyMatrix" (build_empty_adjacency [])

/-- The document transformation of `clear_database`: set `languages`,
`references` and `separatingFunctions` to `[]` and `adjacencyMatrix` to
`build_empty_adjacency([])`.  `none` models a Python runtime error (the
top-level value does not support item assignment). -/
def clearDatabaseDoc (doc : JValue) : Option JValue :=
  match doc with
  | .obj fields => some (.obj (clearDatabaseFields fields))
  | _ => none

/-- The state of the storage file: missing, present but not valid JSON, or a
parsed document. -/
inductive FileState where
  | missing
  | malformed (raw : String)
  | parsed (doc : JValue)
  deriving Repr

/-- How a script run ended: successful write, read/parse error (file missing
or malformed), or a runtime error during the transformation. -/
inductive RunOutcome where
  | success
  | readParseError
  | runtimeError
  deriving Repr, DecidableEq

/-- One run of a script over the storage file: open/parse, transform, write.
The write happens only after a successful read and transformation; any
earlier exception aborts the process and leaves the file unchanged. -/
def runScript (transform : JValue → Option JValue) :
    FileState → FileState × RunOutcome
  | .missing => (.missing, .readParseError)
  | .malformed raw => (.malformed raw, .readParseError)
  | .parsed doc =>
      match transform doc with
      | none => (.parsed doc, .runtimeError)
      | some doc' => (.parsed doc', .success)

theorem lookup_setKey_self (fs : List (String × JValue)) (k : String) (v : JValue) :
    lookupKey (setKey fs k v) k = some v := by
  induction fs with
  | nil => simp [setKey, lookupKey]
  | cons p rest ih =>
      obtain ⟨k', v'⟩ := p
      by_cases h : k' = k
      · simp [setKey, h, lookupKey]
      · simp [setKey, h, lookupKey, ih]

theorem lookup_setKey_other (fs : List (String × JValue)) (k k' : String) (v : JValue)
    (h : k' ≠ k) : lookupKey (setKey fs k v) k' = lookupKey fs k' := by
  induction fs with
  | nil => simp [setKey, lookupKey, Ne.symm h]
  | cons p rest ih =>
      obtain ⟨k₀, v₀⟩ := p
      by_cases h0 : k₀ = k
      · subst h0
        simp [setKey, lookupKey, Ne.symm h]
      · simp only [setKey, if_neg h0, lookupKey]
        by_cases h1 : k₀ = k'
        · simp [h1]
        · simp [h1, ih]

theorem setKey_eq_of_lookup (fs : List (String × JValue)) (k : String) (v : JValue)
    (h : lookupKey fs k = some v) : setKey fs k v = fs := by
  induction fs with
  | nil => simp [lookupKey] at h
  | cons p rest ih =>
      obtain ⟨k₀, v₀⟩ := p
      by_cases h0 : k₀ = k
      · subst h0
        have h' : v₀ = v := by simpa [lookupKey] using h
        subst h'
        simp [setKey]
      · simp only [lookupKey, if_neg h0] at h
        simp [setKey, h0, ih h]

/-- C1: for every input list of strings, `build_empty_adjacency` returns an
object whose `languageIds` is the input list in order and whose `matrix` has
exactly one row per input string, every row having one cell per input string,
every cell `null`. -/
theorem build_empty_adjacency_spec (ids : List String) :
    matrixLanguageIds (build_empty_adjacency (ids.map .str)) = some (ids.map .str) ∧
    ∃ rows, matrixRows (build_empty_adjacency (ids.map .str)) = some rows ∧
      rows.length = ids.length ∧
      ∀ row ∈ rows, ∃ cells, row = .arr cells ∧ cells.length = ids.length ∧
        ∀ c ∈ cells, c = .null := by
  refine ⟨rfl, List.replicate (ids.map JValue.str).length
    (.arr (List.replicate (ids.map JValue.str).length .null)), rfl, by simp, ?_⟩
  intro row hrow
  rw [List.eq_of_mem_replicate hrow]
  exact ⟨_, rfl, by simp, fun c hc => List.eq_of_mem_replicate hc⟩

/-- C4: for every input list (empty included), the result of
`build_empty_adjacency` satisfies the square-matrix invariant: the number of
rows equals the length of `languageIds`, and every row's length equals the
length of `languageIds`. -/
theorem build_empty_adjacency_square (ids : List JValue) :
    ∃ lids rows,
      matrixLanguageIds (build_empty_adjacency ids) = some lids ∧
      matrixRows (build_empty_adjacency ids) = some rows ∧
      rows.length = lids.length ∧
      ∀ row ∈ rows, ∃ cells, row = .arr cells ∧ cells.length = lids.length := by
  refine ⟨ids, List.replicate ids.length (.arr (List.replicate ids.length .null)),
    rfl, rfl, by simp, ?_⟩
  intro row hrow
  rw [List.eq_of_mem_replicate hrow]
  exact ⟨_, rfl, by simp⟩

theorem lookup_cdf_languages (fields : List (String × JValue)) :
    lookupKey (clearDatabaseFields fields) "languages" = some (.arr []) := by
  unfold clearDatabaseFields
  rw [lookup_setKey_other _ _ _ _ (by decide), lookup_setKey_other _ _ _ _ (by decide),
    lookup_setKey_other _ _ _ _ (by decide), lookup_setKey_self]

theorem lookup_cdf_references (fields : List (String × JValue)) :
    lookupKey (clearDatabaseFields fields) "references" = some (.arr []) := by
  unfold clearDatabaseFields
  rw [lookup_setKey_other _ _ _ _ (by decide), lookup_setKey_other _ _ _ _ (by decide),
    lookup_setKey_self]

theorem lookup_cdf_separating (fields : List (String × JValue)) :
    lookupKey (clearDatabaseFields fields) "separatingFunctions" = some (.arr []) := by
  unfold clearDatabaseFields
  rw [lookup_setKey_other _ _ _ _ (by decide), lookup_setKey_self]

theorem lookup_cdf_adjacency (fields : List (String × JValue)) :
    lookupKey (clearDatabaseFields fields) "adjacencyMatrix" =
      some (build_empty_adjacency []) := by
  unfold clearDatabaseFields
  rw [lookup_setKey_self]

theorem clearDatabaseFields_idem (fields : List (String × JValue)) :
    clearDatabaseFields (clearDatabaseFields fields) = clearDatabaseFields fields := by
  conv_lhs => rw [clearDatabaseFields]
  rw [setKey_eq_of_lookup _ _ _ (lookup_cdf_languages fields),
    setKey_eq_of_lookup _ _ _ (lookup_cdf_references fields),
    setKey_eq_of_lookup _ _ _ (lookup_cdf_separating fields),
    setKey_eq_of_lookup _ _ _ (lookup_cdf_adjacency fields)]

/-- C2: the adjacency-only reset recomputes `languageIds` as the id-or-name
sequence of the document's `languages` list and replaces `adjacencyMatrix`
with `build_empty_adjacency` of that sequence, every other field untouched. -/
theorem clear_adjacency_rebuilds (fields : List (String × JValue)) (langs ids : List JValue)
    (hl : lookupKey fields "languages" = some (.arr langs))
    (hi : computeLanguageIds langs = some ids) :
    clearAdjacencyDoc (.obj fields) =
      some (.obj (setKey fields "adjacencyMatrix" (build_empty_adjacency ids))) := by
  simp [clearAdjacencyDoc, hl, iterElems, hi]

/-- C2 witness: for `languages = [{"id":"py"},{"id":"rs"}]` the adjacency-only
reset produces `languageIds = ["py","rs"]` and a 2×2 all-null matrix. -/
theorem clear_adjacency_rebuilds_witness :
    clearAdjacencyDoc (.obj [("languages",
        .arr [.obj [("id", .str "py")], .obj [("id", .str "rs")]])]) =
      some (.obj [("languages", .arr [.obj [("id", .str "py")], .obj [("id", .str "rs")]]),
        ("adjacencyMatrix", .obj [("languageIds", .arr [.str "py", .str "rs"]),
          ("matrix", .arr [.arr [.null, .null], .arr [.null, .null]])])]) :=
  clear_adjacency_rebuilds
    [("languages", .arr [.obj [("id", .str "py")], .obj [("id", .str "rs")]])]
    [.obj [("id", .str "py")], .obj [("id", .str "rs")]]
    [.str "py", .str "rs"] rfl rfl

/-- C3: for every input document, the full reset sets `languages`,
`references` and `separatingFunctions` to empty arrays and `adjacencyMatrix`
to the empty structure `{languageIds: [], matrix: []}`. -/
theorem clear_database_resets (fields : List (String × JValue)) :
    ∃ fields', clearDatabaseDoc (.obj fields) = some (.obj fields') ∧
      lookupKey fields' "languages" = some (.arr []) ∧
      lookupKey fields' "references" = some (.arr []) ∧
      lookupKey fields' "separatingFunctions" = some (.arr []) ∧
      lookupKey fields' "adjacencyMatrix" =
        some (.obj [("languageIds", .arr []), ("matrix", .arr [])]) :=
  ⟨clearDatabaseFields fields, rfl, lookup_cdf_languages fields,
    lookup_cdf_references fields, lookup_cdf_separating fields,
    lookup_cdf_adjacency fields⟩

/-- C6: the full reset's document transformation is idempotent: applying it
twice yields the same document as applying it once, for every input. -/
theorem clear_database_idempotent (doc : JValue) :
    (clearDatabaseDoc doc).bind clearDatabaseDoc = clearDatabaseDoc doc := by
  cases doc
  case obj fields =>
    show clearDatabaseDoc (JValue.obj (clearDatabaseFields fields))
      = some (JValue.obj (clearDatabaseFields fields))
    show some (JValue.obj (clearDatabaseFields (clearDatabaseFields fields)))
      = some (JValue.obj (clearDatabaseFields fields))
    rw [clearDatabaseFields_idem]
  all_goals rfl

/-- C5 counterexample: in the record `{"id": "", "name": "Zig"}` the key `id`
is present (with value `""`), yet the computed identifier is `"Zig"`, not the
id — the code falls back to `name` whenever the id value is falsy, not only
when it is absent. -/
theorem id_or_name_counterexample :
    lookupKey [("id", JValue.str ""), ("name", JValue.str "Zig")] "id"
        = some (.str "") ∧
    idOrName (.obj [("id", .str ""), ("name", .str "Zig")]) = some (.str "Zig") ∧
    JValue.str "Zig" ≠ JValue.str "" :=
  ⟨rfl, rfl, by simp⟩

/-- C5 (amended): the identifier for a record is its `id` value whenever that
value is truthy; when `id` is absent or its value falsy (e.g. `null` or the
empty string) the `name` value is used — so a record with no `id` and
`name = "Zig"` contributes `"Zig"`. -/
theorem id_or_name_policy (fs : List (String × JValue)) (idv : JValue)
    (hid : (lookupKey fs "id").getD .null = idv) :
    (truthy idv = true → idOrName (.obj fs) = some idv) ∧
    (truthy idv = false →
      idOrName (.obj fs) = some ((lookupKey fs "name").getD .null)) := by
  subst hid
  constructor
  · intro ht
    simp [idOrName, pyGet, pyOr, ht]
  · intro hf
    simp [idOrName, pyGet, pyOr, hf]

/-- C5 witness: a record with no `id` and `name = "Zig"` contributes
`"Zig"`. -/
theorem id_or_name_policy_witness :
    idOrName (.obj [("name", .str "Zig")]) = some (.str "Zig") :=
  (id_or_name_policy [("name", JValue.str "Zig")] .null rfl).2 rfl

theorem clearAdjacencyDoc_obj_eq (fields : List (String × JValue)) :
    clearAdjacencyDoc (.obj fields) =
      (iterElems ((lookupKey fields "languages").getD (.arr []))).bind
        (fun langs => (computeLanguageIds langs).map
          (fun ids => .obj (setKey fields "adjacencyMatrix"
            (build_empty_adjacency ids)))) := by
  show (match iterElems ((lookupKey fields "languages").getD (JValue.arr [])) with
      | none => none
      | some langs =>
          match computeLanguageIds langs with
          | none => none
          | some ids => some (JValue.obj (setKey fields "adjacencyMatrix"
              (build_empty_adjacency ids)))) = _
  cases iterElems ((lookupKey fields "languages").getD (JValue.arr [])) with
  | none => rfl
  | some langs =>
      show (match computeLanguageIds langs with
          | none => none
          | some ids => some (JValue.obj (setKey fields "adjacencyMatrix"
              (build_empty_adjacency ids)))) = _
      simp only [Option.some_bind]
      cases computeLanguageIds langs <;> rfl

/-- C7: when the storage file is missing or its content is malformed, both
scripts end in a read/parse error and perform no write: the file state is
unchanged. -/
theorem read_parse_error_no_write (fs : FileState)
    (h : fs = .missing ∨ ∃ raw, fs = .malformed raw) :
    runScript clearAdjacencyDoc fs = (fs, .readParseError) ∧
    runScript clearDatabaseDoc fs = (fs, .readParseError) := by
  rcases h with h | ⟨raw, h⟩ <;> subst h <;> exact ⟨rfl, rfl⟩

/-- C7 witness: the missing-file case, for both scripts. -/
theorem read_parse_error_no_write_witness :
    runScript clearAdjacencyDoc .missing = (.missing, .readParseError) ∧
    runScript clearDatabaseDoc .missing = (.missing, .readParseError) :=
  read_parse_error_no_write .missing (Or.inl rfl)

/-- C8: the adjacency-only reset changes only the `adjacencyMatrix` key:
every other top-level key of the written document (in particular
`languages`, `references`, `separatingFunctions`) looks up to exactly what
it looked up to in the loaded document. -/
theorem clear_adjacency_frame (fields fields' : List (String × JValue))
    (h : clearAdjacencyDoc (.obj fields) = some (.obj fields'))
    (k : String) (hk : k ≠ "adjacencyMatrix") :
    lookupKey fields' k = lookupKey fields k := by
  rw [clearAdjacencyDoc_obj_eq] at h
  cases hit : iterElems ((lookupKey fields "languages").getD (.arr [])) with
  | none => rw [hit] at h; simp at h
  | some langs =>
      rw [hit] at h
      simp only [Option.some_bind] at h
      cases hci : computeLanguageIds langs with
      | none => rw [hci] at h; simp at h
      | some ids =>
          rw [hci] at h
          simp only [Option.map_some', Option.some_inj, JValue.obj.injEq] at h
          rw [← h, lookup_setKey_other _ _ _ _ hk]

/-- C8 witness: a document with an extra key `notes` keeps it (and its
value) through the adjacency-only reset. -/
theorem clear_adjacency_frame_witness :
    lookupKey [("languages", JValue.arr []), ("notes", JValue.str "keep"),
        ("adjacencyMatrix", JValue.obj [("languageIds", JValue.arr []),
          ("matrix", JValue.arr [])])] "notes"
      = lookupKey [("languages", JValue.arr []), ("notes", JValue.str "keep")] "notes" :=
  clear_adjacency_frame
    [("languages", JValue.arr []), ("notes", JValue.str "keep")]
    [("languages", JValue.arr []), ("notes", JValue.str "keep"),
      ("adjacencyMatrix", JValue.obj [("languageIds", JValue.arr []),
        ("matrix", JValue.arr [])])]
    rfl "notes" (by decide)

/-- C9: a language record with neither `id` nor `name` makes the adjacency-only
reset place `null` (not a string) in `languageIds` at that record's position:
here `languages = [{"id":"py"}, {}]` yields `languageIds = ["py", null]`. -/
theorem null_identifier_possible :
    clearAdjacencyDoc (.obj [("languages", .arr [.obj [("id", .str "py")], .obj []])]) =
      some (.obj [("languages", .arr [.obj [("id", .str "py")], .obj []]),
        ("adjacencyMatrix", .obj [("languageIds", .arr [.str "py", .null]),
          ("matrix", .arr [.arr [.null, .null], .arr [.null, .null]])])]) ∧
    (∀ s : String, JValue.null ≠ .str s) :=
  ⟨rfl, fun _ h => JValue.noConfusion h⟩

/-- C10: the full reset leaves every top-level key other than `languages`,
`references`, `separatingFunctions` and `adjacencyMatrix` unchanged between
load and write. -/
theorem clear_database_frame (fields fields' : List (String × JValue))
    (h : clearDatabaseDoc (.obj fields) = some (.obj fields'))
    (k : String) (h1 : k ≠ "languages") (h2 : k ≠ "references")
    (h3 : k ≠ "separatingFunctions") (h4 : k ≠ "adjacencyMatrix") :
    lookupKey fields' k = lookupKey fields k := by
  simp only [clearDatabaseDoc, Option.some_inj, JValue.obj.injEq] at h
  rw [← h]
  unfold clearDatabaseFields
  rw [lookup_setKey_other _ _ _ _ h4, lookup_setKey_other _ _ _ _ h3,
    lookup_setKey_other _ _ _ _ h2, lookup_setKey_other _ _ _ _ h1]

/-- C10 witness: a document with an extra key `version` keeps it (and its
value) through the full reset. -/
theorem clear_database_frame_witness :
    lookupKey [("version", JValue.num 3), ("languages", JValue.arr []),
        ("references", JValue.arr []), ("separatingFunctions", JValue.arr []),
        ("adjacencyMatrix", JValue.obj [("languageIds", JValue.arr []),
          ("matrix", JValue.arr [])])] "version"
      = lookupKey [("version", JValue.num 3)] "version" :=
  clear_database_frame [("version", JValue.num 3)]
    [("version", JValue.num 3), ("languages", JValue.arr []),
      ("references", JValue.arr []), ("separatingFunctions", JValue.arr []),
      ("adjacencyMatrix", JValue.obj [("languageIds", JValue.arr []),
        ("matrix", JValue.arr [])])]
    rfl "version" (by decide) (by decide) (by decide) (by decide)

end KCM
